import Mathlib

/-!
Shallow embedding of the Clinicore Intelligence dashboard core
(`src/Frontend/dashboard.js`, with the auth helper of `src/unnamed/part_000`).

Pure data flow is translated directly; asynchronous collaborator calls
(prediction service, Firestore, role lookup) are modelled by passing their
settled results as explicit `Except` / `Option` arguments, and the document
stores are explicit lists of documents threaded through each handler.
Timestamps are seconds since the epoch (`Nat`); probabilities are `ℚ`.
-/

/-- One entry of a disease-prediction `top3` list: `{disease, confidence}`. -/
structure DiseaseTop where
  disease : String
  confidence : ℚ
deriving DecidableEq, Repr

/-- Disease-prediction response `{top3: [...]}` of `/predict-disease`. -/
structure DiseaseRes where
  top3 : List DiseaseTop
deriving DecidableEq, Repr

/-- Outcome-prediction response `{risk, probability}` of `/predict-outcome`.
`probability` is `none` when the field is absent or not a number (the code
guards with `typeof ... === 'number'`). -/
structure OutcomeRes where
  risk : String
  probability : Option ℚ
deriving DecidableEq, Repr

/-- The normalized clinical payload built by the predict-form submit handler. -/
structure Payload where
  PatientName : String
  Age : Nat
  Gender : String
  Fever : String
  Cough : String
  Fatigue : String
  DifficultyBreathing : String
  temp : Nat
  hr : Nat
  rr : Nat
  spo2 : Nat
  BloodPressure : String
  Cholesterol : String
deriving DecidableEq, Repr

/-- Raw form-control values read by the submit handler.  A numeric text input
is `none` when left empty (its `.value` is the empty string, which is falsy in
`Number(x.value || d)`); a checkbox is a `Bool`; the select controls always
hold a string. -/
structure FormInput where
  pname : Option String
  age : Option Nat
  gender : String
  fever : Bool
  cough : Bool
  fatigue : Bool
  dbreath : Bool
  temp : Option Nat
  hr : Option Nat
  rr : Option Nat
  spo2 : Option Nat
  bp_cat : String
  chol : String
deriving DecidableEq, Repr

/-- The payload literal of the submit handler: `Number(value || 0)` for age,
temp, hr and rr; `Number(value || 100)` for spo2; `checked ? 'Yes' : 'No'` for
the symptom checkboxes; select values passed through unchanged. -/
def buildPayload (f : FormInput) : Payload :=
  { PatientName := f.pname.getD ""
    Age := f.age.getD 0
    Gender := f.gender
    Fever := if f.fever then "Yes" else "No"
    Cough := if f.cough then "Yes" else "No"
    Fatigue := if f.fatigue then "Yes" else "No"
    DifficultyBreathing := if f.dbreath then "Yes" else "No"
    temp := f.temp.getD 0
    hr := f.hr.getD 0
    rr := f.rr.getD 0
    spo2 := f.spo2.getD 100
    BloodPressure := f.bp_cat
    Cholesterol := f.chol }

/-- A form with every optional control untouched. -/
def blankForm (g bp ch : String) : FormInput :=
  { pname := none
    age := none
    gender := g
    fever := false
    cough := false
    fatigue := false
    dbreath := false
    temp := none
    hr := none
    rr := none
    spo2 := none
    bp_cat := bp
    chol := ch }

/-- The `prediction` field of a stored `diagnosis` document.  The predict-form
handler writes `{ diseaseRes, outcomeRes }`; `refreshStats` and
`loadAnalyticsCharts` additionally read a flat `disease_top` label that no
writer in this file ever sets. -/
structure Prediction where
  disease_top : Option String := none
  diseaseRes : Option DiseaseRes := none
  outcomeRes : Option OutcomeRes := none
deriving DecidableEq, Repr

/-- A document of the `diagnosis` collection. -/
structure DiagnosticRecord where
  patient_name : String := ""
  age : Nat := 0
  features : Option Payload := none
  prediction : Option Prediction := none
  createdAt : Option Nat := none
  createdBy : Option String := none
deriving DecidableEq, Repr

/-- The only user-visible blocking failure of a submission: one of the two
prediction calls rejected. -/
inductive SubmitError where
  | predictionUnavailable
deriving DecidableEq, Repr

/-- The document written by `db.collection('diagnosis').add(...)` on a
successful submission. -/
def mkRecord (p : Payload) (d : DiseaseRes) (o : OutcomeRes)
    (uid : Option String) (now : Nat) : DiagnosticRecord :=
  { patient_name := p.PatientName
    age := p.Age
    features := some p
    prediction := some { diseaseRes := some d, outcomeRes := some o }
    createdAt := some now
    createdBy := uid }

/-- The predict-form submit handler: it awaits `/predict-disease`, then
`/predict-outcome`, and only then adds the record; a rejected prediction call
aborts the handler before the add, so the store is left unchanged.  Each call
is modelled by its settled result; the returned pair is the new store and the
error, if any. -/
def submitHandler (f : FormInput) (diseaseCall : Except Unit DiseaseRes)
    (outcomeCall : Except Unit OutcomeRes) (uid : Option String) (now : Nat)
    (store : List DiagnosticRecord) :
    List DiagnosticRecord × Option SubmitError :=
  let payload := buildPayload f
  match diseaseCall with
  | .error _ => (store, some .predictionUnavailable)
  | .ok d =>
    match outcomeCall with
    | .error _ => (store, some .predictionUnavailable)
    | .ok o => (store ++ [mkRecord payload d o uid now], none)

/-- JS `a || d` on an optional string, where the empty string is falsy. -/
def jsOrS (a : Option String) (d : String) : String :=
  match a with
  | some s => if s = "" then d else s
  | none => d

/-- Label used by the `refreshStats` distribution:
`(r.prediction && r.prediction.disease_top) || 'Unknown'`. -/
def statsLabel (r : DiagnosticRecord) : String :=
  jsOrS (r.prediction.bind (·.disease_top)) "Unknown"

/-- `m[k] = (m[k] || 0) + 1` on an association list, appending the key on
first occurrence (JS object key insertion order). -/
def bumpKey {α : Type} [DecidableEq α] (k : α) :
    List (α × Nat) → List (α × Nat)
  | [] => [(k, 1)]
  | (k', v) :: rest =>
    if k' = k then (k', v + 1) :: rest else (k', v) :: bumpKey k rest

/-- The `dist` object built by `refreshStats` over a window of records. -/
def distCounts (docs : List DiagnosticRecord) : List (String × Nat) :=
  (docs.map statsLabel).foldl (fun m l => bumpKey l m) []

/-- Sum of the values of a count table. -/
def sumCounts {α : Type} (m : List (α × Nat)) : Nat := (m.map Prod.snd).sum

/-- One labeled example extracted by `generateModelMetricsFromRecords`:
ground-truth label, predicted probability, thresholded prediction. -/
structure LabeledPair where
  y_true : Nat
  y_prob : ℚ
  y_pred : Nat
deriving DecidableEq, Repr

/-- The pair-extraction loop: records lacking `features` or `prediction` are
skipped (`continue`), then a pair is pushed exactly when
`prediction.outcomeRes.probability` is a number; the proxy label is
`risk === 'High Risk' ? 1 : 0` and the prediction `prob >= 0.5 ? 1 : 0`. -/
def extractPair (r : DiagnosticRecord) : Option LabeledPair :=
  match r.features, r.prediction with
  | some _, some p =>
    match p.outcomeRes with
    | some o =>
      match o.probability with
      | some prob =>
        some { y_true := if o.risk = "High Risk" then 1 else 0
               y_prob := prob
               y_pred := if (1 : ℚ) / 2 ≤ prob then 1 else 0 }
      | none => none
    | none => none
  | _, _ => none

/-- All labeled pairs of a window, in window order. -/
def labeledPairs (docs : List DiagnosticRecord) : List LabeledPair :=
  docs.filterMap extractPair

/-- Result of a metrics run: either the labeled pairs are posted to the
server-side ROC / confusion-matrix endpoints and both charts are rendered, or
the run is skipped with only a console warning. -/
inductive MetricsOutcome where
  | computed (pairs : List LabeledPair)
  | skipped
deriving DecidableEq, Repr

/-- `generateModelMetricsFromRecords`: computes only when strictly more than 10
labeled pairs were extracted (`y_true.length > 10`); otherwise skips. -/
def generateModelMetricsFromRecords (docs : List DiagnosticRecord) :
    MetricsOutcome :=
  let pairs := labeledPairs docs
  if pairs.length > 10 then .computed pairs else .skipped

/-- Whether a metrics run reaches `plotROC` / `renderConfMatrix`. -/
def rendersMetricsCharts : MetricsOutcome → Bool
  | .computed _ => true
  | .skipped => false

/-- A signed-in user, as far as the dashboard consults it. -/
structure AuthUser where
  uid : String
deriving DecidableEq, Repr

/-- Role resolution of `showAnalyticsIfAdmin`: `role` starts as `null`, the
Firestore `users/{uid}` get is wrapped in try/catch (a throw only logs a
warning), and `role` is assigned only when the doc exists.  The lookup argument
is the settled result of that get: `.error` for a throw, `.ok none` for a
missing doc, `.ok (some role)` for the doc's role field. -/
def resolveRole (lookup : Except Unit (Option String)) : Option String :=
  match lookup with
  | .error _ => none
  | .ok r => r

/-- What one signed-in auth-state event does, combining the `window load`
handler (redirect check, 200-record refresh, metrics generation) and the
admin-gating listener (`showAnalyticsIfAdmin`). -/
structure LoadFlowResult where
  redirectedToLogin : Bool
  metricsComputerTriggered : Bool
  adminWindowQueried : Bool
deriving DecidableEq, Repr

/-- `showAnalyticsIfAdmin` queries the 1000-record window (and shows the
analytics card) exactly when the resolved role is `admin`; it returns early for
a signed-out user. -/
def showAnalyticsIfAdmin (user : Option AuthUser)
    (lookup : Except Unit (Option String)) : Bool :=
  match user with
  | none => false
  | some _ => resolveRole lookup = some "admin"

/-- One auth-state resolution of the dashboard page.  The load handler
redirects when signed out; when signed in it always runs `refreshStats`,
`loadFeatureImportance` and `generateModelMetricsFromRecords`, with no role
check, while the admin listener decides the 1000-record analytics query. -/
def loadFlow (user : Option AuthUser) (roleLookup : Except Unit (Option String)) :
    LoadFlowResult :=
  match user with
  | none =>
    { redirectedToLogin := true
      metricsComputerTriggered := false
      adminWindowQueried := false }
  | some u =>
    { redirectedToLogin := false
      metricsComputerTriggered := true
      adminWindowQueried := showAnalyticsIfAdmin (some u) roleLookup }

/-- Label used by the `loadAnalyticsCharts` top-diagnoses count:
`(r.prediction && ... && top3[0].disease) || (r.prediction && r.prediction.disease_top) || 'Unknown'`. -/
def dxLabel (r : DiagnosticRecord) : String :=
  jsOrS (r.prediction.bind fun p => p.diseaseRes.bind fun d =>
          d.top3.head?.map (·.disease))
    (jsOrS (r.prediction.bind (·.disease_top)) "Unknown")

/-- The `dxCount` object of `loadAnalyticsCharts`. -/
def dxCount (docs : List DiagnosticRecord) : List (String × Nat) :=
  (docs.map dxLabel).foldl (fun m l => bumpKey l m) []

/-- `dxCount[lab]`, defaulting to 0. -/
def countOf (docs : List DiagnosticRecord) (lab : String) : Nat :=
  ((dxCount docs).lookup lab).getD 0

/-- Stable insertion by strictly greater count: a later element passes an
earlier one only when its count is strictly larger, which is the stable
`Array.prototype.sort` with comparator `(a, b) => dxCount[b] - dxCount[a]`. -/
def insertByCountDesc (cnt : String → Nat) (x : String) :
    List String → List String
  | [] => [x]
  | y :: ys =>
    if cnt y < cnt x then x :: y :: ys else y :: insertByCountDesc cnt x ys

/-- Stable sort of the key list by descending count. -/
def sortByCountDesc (cnt : String → Nat) (ls : List String) : List String :=
  ls.foldl (fun acc x => insertByCountDesc cnt x acc) []

/-- `Object.keys(dxCount).sort((a,b) => dxCount[b]-dxCount[a]).slice(0,8)`:
keys in first-appearance order, stably sorted by descending count, first 8. -/
def topDx (docs : List DiagnosticRecord) : List String :=
  (sortByCountDesc (countOf docs) ((dxCount docs).map Prod.fst)).take 8

/-- Day bucket of `loadAnalyticsCharts`: the record's `createdAt` when present,
else the current time (`new Date()`), collapsed to a UTC day index. -/
def dayOf (now : Nat) (r : DiagnosticRecord) : Nat :=
  (r.createdAt.getD now) / 86400

/-- The `countsByDay` object of `loadAnalyticsCharts`. -/
def countsByDay (now : Nat) (docs : List DiagnosticRecord) : List (Nat × Nat) :=
  (docs.map (dayOf now)).foldl (fun m d => bumpKey d m) []

/-- Ascending insertion into a sorted list of day indices. -/
def insertSortedNat (x : Nat) : List Nat → List Nat
  | [] => [x]
  | y :: ys => if x ≤ y then x :: y :: ys else y :: insertSortedNat x ys

/-- `Object.keys(countsByDay).sort()`: ISO day strings sort lexicographically,
which is numerically on day indices. -/
def sortNat (ls : List Nat) : List Nat := ls.foldr insertSortedNat []

/-- The day-bucketed time series: sorted days paired with their counts. -/
def timeSeriesOf (now : Nat) (docs : List DiagnosticRecord) :
    List (Nat × Nat) :=
  let m := countsByDay now docs
  (sortNat (m.map Prod.fst)).map fun d => (d, ((m.lookup d).getD 0))

/-- The combined analytics output of one refresh over a window. -/
structure AggregateResult where
  distribution : List (String × Nat)
  topK : List String
  timeSeries : List (Nat × Nat)
deriving DecidableEq, Repr

/-- One aggregation pass over a window: the `refreshStats` distribution plus
the `loadAnalyticsCharts` top diagnoses and time series, computed at time
`now`. -/
def aggregate (now : Nat) (docs : List DiagnosticRecord) : AggregateResult :=
  { distribution := distCounts docs
    topK := topDx docs
    timeSeries := timeSeriesOf now docs }

/-- A document of the `chat_history` collection. -/
structure ChatDoc where
  uid : String
  sender : String
  message : String
deriving DecidableEq, Repr

/-- `saveChat`: returns immediately when no user is signed in (no write, no
throw); otherwise appends one `chat_history` document. -/
def saveChat (currentUser : Option AuthUser) (sender text : String)
    (hist : List ChatDoc) : List ChatDoc :=
  match currentUser with
  | none => hist
  | some u => hist ++ [{ uid := u.uid, sender := sender, message := text }]

/-- JS `String.prototype.trim()`: strip whitespace from both ends. -/
def jsTrim (s : String) : String :=
  String.mk (((s.data.dropWhile Char.isWhitespace).reverse.dropWhile
    Char.isWhitespace).reverse)

/-- `sendMessage`: trims the input and returns when it is empty; otherwise it
appends the user's line to the chat box and saves it, posts to the chat
endpoint (the settled reply is passed in), appends the AI line and saves it. -/
def sendMessage (currentUser : Option AuthUser) (input reply : String)
    (box : List (String × String)) (hist : List ChatDoc) :
    List (String × String) × List ChatDoc :=
  let msg := jsTrim input
  if msg = "" then (box, hist)
  else
    let hist₁ := saveChat currentUser "You" msg hist
    let hist₂ := saveChat currentUser "AI" reply hist₁
    (box ++ [("You", msg), ("AI", reply)], hist₂)

/-- An auth-state / timer event seen by the dashboard page. -/
inductive SchedEvent where
  | pageLoad
  | tick
  | authChange (signedIn : Bool)
deriving DecidableEq, Repr

/-- Live registration counts: `setInterval` timers and `onAuthStateChanged`
listeners. -/
structure SchedState where
  timers : Nat
  listeners : Nat
deriving DecidableEq, Repr

/-- Registrations after the module top level has run: the admin-gating
`onAuthStateChanged` listener and the single 5-minute `setInterval` timer. -/
def initSched : SchedState := { timers := 1, listeners := 1 }

/-- `pageLoad`: the `window load` handler registers another auth-state
listener.  `tick`: each 5-minute interval callback calls
`firebase.auth().onAuthStateChanged(...)` again, registering one more listener
that is never unsubscribed.  Auth-state transitions run the existing callbacks
but register nothing new. -/
def schedStep (s : SchedState) : SchedEvent → SchedState
  | .pageLoad => { s with listeners := s.listeners + 1 }
  | .tick => { s with listeners := s.listeners + 1 }
  | .authChange _ => s

/-- The registration state after a sequence of page events. -/
def runSched (evs : List SchedEvent) : SchedState := evs.foldl schedStep initSched

/-- Which events register a fresh auth-state listener. -/
def registersListener : SchedEvent → Bool
  | .pageLoad => true
  | .tick => true
  | .authChange _ => false

/-- The concrete end-to-end submission of the spec's test property: Age 45,
Fever Yes, everything else left at its default. -/
def fluForm : FormInput :=
  { pname := some "Jane"
    age := some 45
    gender := "Female"
    fever := true
    cough := false
    fatigue := false
    dbreath := false
    temp := none
    hr := none
    rr := none
    spo2 := none
    bp_cat := "Normal"
    chol := "Normal" }

/-- Disease response `top3 = [{disease: "Flu", confidence: 0.8}]`. -/
def fluDisease : DiseaseRes := ⟨[⟨"Flu", 4 / 5⟩]⟩

/-- Outcome response `{risk: "HighRisk", probability: 0.7}`. -/
def fluOutcome : OutcomeRes := ⟨"HighRisk", some (7 / 10)⟩

/-- The store and error after submitting `fluForm` against an empty store. -/
def fluSubmit : List DiagnosticRecord × Option SubmitError :=
  submitHandler fluForm (Except.ok fluDisease) (Except.ok fluOutcome) none 0 []

/-- A record whose label in first-appearance order precedes `recAlpha`'s but
follows it lexically. -/
def recZeta : DiagnosticRecord :=
  { prediction := some { disease_top := some "Zeta" } }

/-- A record labeled `Alpha`. -/
def recAlpha : DiagnosticRecord :=
  { prediction := some { disease_top := some "Alpha" } }

/-- A record carrying a server timestamp. -/
def tsRecord : DiagnosticRecord := { createdAt := some 1700000000 }

/-- Lexical order on character lists, as the spec's tie-break reads. -/
def lexLtChars : List Char → List Char → Bool
  | [], [] => false
  | [], _ :: _ => true
  | _ :: _, [] => false
  | a :: as, b :: bs =>
    if a < b then true else if b < a then false else lexLtChars as bs

/-- Lexical order on labels, following the spec's words for the `topK`
tie-break; used only to compare the code's order with the specified one. -/
def strLt (a b : String) : Bool := lexLtChars a.toList b.toList

/-- Insertion following the spec's words: highest count first, ties by
ascending lexical label order. -/
def insertSpecOrder (cnt : String → Nat) (x : String) :
    List String → List String
  | [] => [x]
  | y :: ys =>
    if cnt y < cnt x || (cnt x == cnt y && strLt x y) then x :: y :: ys
    else y :: insertSpecOrder cnt x ys

/-- The `topK` the spec describes, for comparison with `topDx`: the k labels
with highest count, ties broken by ascending lexical order of the label. -/
def topKSpecOrder (docs : List DiagnosticRecord) (k : Nat) : List String :=
  (((dxCount docs).map Prod.fst).foldl
    (fun acc x => insertSpecOrder (countOf docs) x acc) []).take k

/-- The fully sorted key list of `loadAnalyticsCharts`, before `slice(0,8)`:
`Object.keys(dxCount).sort((a,b) => dxCount[b]-dxCount[a])`. -/
def sortedKeys (docs : List DiagnosticRecord) : List String :=
  sortByCountDesc (countOf docs) ((dxCount docs).map Prod.fst)

/-- A record labeled `s` through the flat `disease_top` field. -/
def recL (s : String) : DiagnosticRecord :=
  { prediction := some { disease_top := some s } }

/-- Nine records with nine distinct labels, so that one label falls outside
the 8-entry top-diagnoses list. -/
def nineRecs : List DiagnosticRecord :=
  [recL "L1", recL "L2", recL "L3", recL "L4", recL "L5", recL "L6",
   recL "L7", recL "L8", recL "L9"]

theorem sumCounts_bumpKey {α : Type} [DecidableEq α] (k : α)
    (m : List (α × Nat)) : sumCounts (bumpKey k m) = sumCounts m + 1 := by
  induction m with
  | nil => rfl
  | cons p rest ih =>
    obtain ⟨k', v⟩ := p
    simp only [bumpKey]
    split
    · simp [sumCounts]
      omega
    · simp only [sumCounts, List.map_cons, List.sum_cons] at ih ⊢
      omega

theorem sumCounts_foldl_bumpKey {α : Type} [DecidableEq α] (ls : List α)
    (init : List (α × Nat)) :
    sumCounts (ls.foldl (fun m l => bumpKey l m) init) =
      sumCounts init + ls.length := by
  induction ls generalizing init with
  | nil => simp
  | cons x xs ih =>
    rw [List.foldl_cons, ih, sumCounts_bumpKey]
    simp
    omega

/-- C5: the sum of the counts of the distribution computed by a refresh equals
the number of records in the window — each record contributes exactly one
count, under the label `Unknown` when no top disease is present. -/
theorem distCounts_sum_eq_length (docs : List DiagnosticRecord) :
    sumCounts (distCounts docs) = docs.length := by
  unfold distCounts
  rw [sumCounts_foldl_bumpKey]
  simp [sumCounts]

/-- C1: if either prediction call fails, the submission fails with
`PredictionUnavailable` and the store is unchanged — no `DiagnosticRecord` is
written, so a record is persisted only after both calls succeeded. -/
theorem submit_prediction_unavailable (f : FormInput)
    (dc : Except Unit DiseaseRes) (oc : Except Unit OutcomeRes)
    (uid : Option String) (now : Nat) (store : List DiagnosticRecord)
    (h : dc.isOk = false ∨ oc.isOk = false) :
    submitHandler f dc oc uid now store =
      (store, some SubmitError.predictionUnavailable) := by
  cases dc with
  | error e => rfl
  | ok d =>
    cases oc with
    | error e => rfl
    | ok o => rcases h with h | h <;> simp [Except.isOk, Except.toBool] at h

/-- Witness for `submit_prediction_unavailable` at a failed disease call. -/
theorem submit_prediction_unavailable_witness :
    submitHandler (blankForm "Female" "Normal" "Normal") (Except.error ())
      (Except.ok fluOutcome) none 0 [] =
      ([], some SubmitError.predictionUnavailable) :=
  submit_prediction_unavailable (blankForm "Female" "Normal" "Normal")
    (Except.error ()) (Except.ok fluOutcome) none 0 [] (Or.inl rfl)

/-- C8 counterexample: on a form whose spo2 input is left empty, the
normalized payload's spo2 is 100, not the claimed default 0. -/
theorem spo2_default_cex :
    (buildPayload (blankForm "Male" "Normal" "Normal")).spo2 = 100 ∧
    (buildPayload (blankForm "Male" "Normal" "Normal")).spo2 ≠ 0 := by
  decide

/-- C8 amended: missing numeric fields default to 0 except spo2, which
defaults to 100; boolean symptom fields default to `No`; the categorical
selects are passed through unchanged, with no baseline defaulting in the
submit handler. -/
theorem payload_defaults (g bp ch : String) :
    (buildPayload (blankForm g bp ch)).Age = 0 ∧
    (buildPayload (blankForm g bp ch)).temp = 0 ∧
    (buildPayload (blankForm g bp ch)).hr = 0 ∧
    (buildPayload (blankForm g bp ch)).rr = 0 ∧
    (buildPayload (blankForm g bp ch)).spo2 = 100 ∧
    (buildPayload (blankForm g bp ch)).Fever = "No" ∧
    (buildPayload (blankForm g bp ch)).Cough = "No" ∧
    (buildPayload (blankForm g bp ch)).Fatigue = "No" ∧
    (buildPayload (blankForm g bp ch)).DifficultyBreathing = "No" ∧
    (buildPayload (blankForm g bp ch)).PatientName = "" ∧
    (buildPayload (blankForm g bp ch)).Gender = g ∧
    (buildPayload (blankForm g bp ch)).BloodPressure = bp ∧
    (buildPayload (blankForm g bp ch)).Cholesterol = ch :=
  ⟨rfl, rfl, rfl, rfl, rfl, rfl, rfl, rfl, rfl, rfl, rfl, rfl, rfl⟩

/-- C3: the end-to-end submission succeeds and the stored record's outcome
risk is `HighRisk`, but the immediately triggered refresh labels the record
via `prediction.disease_top` — which submissions never write — so its
distribution is `{Unknown: 1}` and has no `Flu` entry at all. -/
theorem endToEnd_flu_distribution :
    fluSubmit.2 = none ∧
    (fluSubmit.1.head?.bind fun r =>
      r.prediction.bind (·.outcomeRes)).map OutcomeRes.risk = some "HighRisk" ∧
    distCounts fluSubmit.1 = [("Unknown", 1)] ∧
    (distCounts fluSubmit.1).lookup "Flu" = none := by
  decide

/-- C4: a metrics run is skipped exactly when at most 10 labeled pairs were
extracted from the window, and a skipped run renders no ROC or
confusion-matrix chart. -/
theorem metrics_skipped_iff (docs : List DiagnosticRecord) :
    (generateModelMetricsFromRecords docs = MetricsOutcome.skipped ↔
      (labeledPairs docs).length ≤ 10) ∧
    rendersMetricsCharts MetricsOutcome.skipped = false := by
  constructor
  · simp only [generateModelMetricsFromRecords]
    split
    next h => simp; omega
    next h => simp; omega
  · rfl

/-- C2 counterexample: a signed-in user whose role is `doctor` does trigger
`generateModelMetricsFromRecords` — the metrics run on page load is not
role-gated. -/
theorem doctor_triggers_metrics_cex :
    (loadFlow (some ⟨"doc-1"⟩)
      (Except.ok (some "doctor"))).metricsComputerTriggered = true ∧
    (loadFlow (some ⟨"doc-1"⟩)
      (Except.ok (some "doctor"))).adminWindowQueried = false := by
  decide

/-- C2 amended: role resolution is fail-closed — a failed lookup or a missing
profile never queries the admin-scale 1000-record window; that window is
queried exactly for a signed-in user whose role resolves to `admin`; but the
MetricsComputer run is triggered for every signed-in user regardless of
role. -/
theorem admin_gating (user : Option AuthUser)
    (lookup : Except Unit (Option String)) :
    ((lookup = Except.error () ∨ lookup = Except.ok none) →
      (loadFlow user lookup).adminWindowQueried = false) ∧
    ((loadFlow user lookup).adminWindowQueried = true ↔
      user.isSome = true ∧ resolveRole lookup = some "admin") ∧
    (user.isSome = true → (loadFlow user lookup).metricsComputerTriggered = true) := by
  refine ⟨?_, ?_, ?_⟩
  · intro h
    rcases user with _ | u
    · rfl
    · rcases h with h | h <;> subst h <;>
        simp [loadFlow, showAnalyticsIfAdmin, resolveRole]
  · rcases user with _ | u
    · simp [loadFlow]
    · rcases lookup with e | r <;>
        simp [loadFlow, showAnalyticsIfAdmin, resolveRole]
  · intro h
    rcases user with _ | u
    · simp at h
    · rfl

/-- Witness for `admin_gating`: a missing profile keeps the admin window off,
while an admin role turns it on and a signed-in user always runs metrics. -/
theorem admin_gating_witness :
    (loadFlow (some ⟨"u-1"⟩) (Except.ok none)).adminWindowQueried = false ∧
    (loadFlow (some ⟨"u-2"⟩)
      (Except.ok (some "admin"))).metricsComputerTriggered = true ∧
    (loadFlow (some ⟨"u-2"⟩)
      (Except.ok (some "admin"))).adminWindowQueried = true :=
  ⟨(admin_gating (some ⟨"u-1"⟩) (Except.ok none)).1 (Or.inr rfl),
   (admin_gating (some ⟨"u-2"⟩) (Except.ok (some "admin"))).2.2 rfl,
   (admin_gating (some ⟨"u-2"⟩) (Except.ok (some "admin"))).2.1.mpr ⟨rfl, rfl⟩⟩

/-- C6: over a window in which every record carries its server-assigned
`createdAt`, one aggregation pass is a pure function of the window — its
distribution, topK and time series do not depend on the evaluation time, so
calling it twice on the same input yields identical output (and, the records
being values here, no input record is mutated). -/
theorem aggregate_time_independent (docs : List DiagnosticRecord)
    (now₁ now₂ : Nat) (h : ∀ r ∈ docs, r.createdAt.isSome = true) :
    aggregate now₁ docs = aggregate now₂ docs := by
  have hmap : docs.map (dayOf now₁) = docs.map (dayOf now₂) := by
    apply List.map_congr_left
    intro r hr
    rcases Option.isSome_iff_exists.mp (h r hr) with ⟨t, ht⟩
    simp [dayOf, ht]
  simp [aggregate, timeSeriesOf, countsByDay, hmap]

/-- Witness for `aggregate_time_independent` on a one-record window. -/
theorem aggregate_time_independent_witness :
    aggregate 0 [tsRecord] = aggregate 987654321 [tsRecord] :=
  aggregate_time_independent [tsRecord] 0 987654321
    (by intro r hr; rw [List.mem_singleton] at hr; subst hr; rfl)

/-- C10: with no authenticated user, `saveChat` returns without writing to
`chat_history` (and without an error path), so a sent message still reaches
the chat box while the history store is left unchanged. -/
theorem savechat_unauthenticated (input reply : String)
    (box : List (String × String)) (hist : List ChatDoc)
    (h : ¬ jsTrim input = "") :
    saveChat none "You" (jsTrim input) hist = hist ∧
    sendMessage none input reply box hist =
      (box ++ [("You", jsTrim input), ("AI", reply)], hist) := by
  refine ⟨rfl, ?_⟩
  simp only [sendMessage, saveChat]
  rw [if_neg h]

/-- Witness for `savechat_unauthenticated` on a concrete message. -/
theorem savechat_unauthenticated_witness :
    saveChat none "You" (jsTrim "hi") [] = [] ∧
    sendMessage none "hi" "hello" [] [] =
      ([("You", jsTrim "hi"), ("AI", "hello")], []) :=
  savechat_unauthenticated "hi" "hello" [] [] (by decide)

/-- C9 counterexample: after the page load and two 5-minute ticks, four
auth-state listeners are live — more than the single listener the claim
allows. -/
theorem sched_listeners_cex :
    (runSched [SchedEvent.pageLoad, SchedEvent.tick,
      SchedEvent.tick]).listeners = 4 ∧
    ¬ (runSched [SchedEvent.pageLoad, SchedEvent.tick,
      SchedEvent.tick]).listeners ≤ 1 := by
  decide

/-- C9 amended: exactly one periodic timer is ever registered, across any
sequence of page events and auth-state transitions; but one fresh auth-state
listener is registered at module evaluation, another on page load, and one
more on every 5-minute tick, so the listener count is one plus the number of
registering events and grows without bound. -/
theorem sched_timer_unique_listeners_grow (evs : List SchedEvent) :
    (runSched evs).timers = 1 ∧
    (runSched evs).listeners = 1 + (evs.filter registersListener).length := by
  have h : ∀ s : SchedState,
      (evs.foldl schedStep s).timers = s.timers ∧
      (evs.foldl schedStep s).listeners =
        s.listeners + (evs.filter registersListener).length := by
    induction evs with
    | nil => intro s; simp
    | cons e es ih =>
      intro s
      obtain ⟨h1, h2⟩ := ih (schedStep s e)
      rw [List.foldl_cons]
      refine ⟨?_, ?_⟩
      · rw [h1]; cases e <;> rfl
      · rw [h2]
        cases e <;> simp [schedStep, registersListener, List.filter_cons] <;> omega
  obtain ⟨h1, h2⟩ := h initSched
  exact ⟨h1, h2⟩

theorem mem_insertByCountDesc (cnt : String → Nat) (x a : String)
    (l : List String) :
    a ∈ insertByCountDesc cnt x l ↔ a = x ∨ a ∈ l := by
  induction l with
  | nil => simp [insertByCountDesc]
  | cons y ys ih =>
    simp only [insertByCountDesc]
    split
    · simp [List.mem_cons]
    · simp [List.mem_cons, ih]
      tauto

theorem pairwise_insertByCountDesc (cnt : String → Nat) (x : String)
    (l : List String) (h : l.Pairwise fun a b => cnt b ≤ cnt a) :
    (insertByCountDesc cnt x l).Pairwise fun a b => cnt b ≤ cnt a := by
  induction l with
  | nil => simp [insertByCountDesc]
  | cons y ys ih =>
    rw [List.pairwise_cons] at h
    obtain ⟨hy, hys⟩ := h
    simp only [insertByCountDesc]
    split
    next hc =>
      rw [List.pairwise_cons]
      refine ⟨?_, List.pairwise_cons.mpr ⟨hy, hys⟩⟩
      intro b hb
      rcases List.mem_cons.mp hb with rfl | hb
      · exact Nat.le_of_lt hc
      · exact Nat.le_trans (hy b hb) (Nat.le_of_lt hc)
    next hc =>
      rw [List.pairwise_cons]
      refine ⟨?_, ih hys⟩
      intro b hb
      rcases (mem_insertByCountDesc cnt x b ys).mp hb with rfl | hb
      · omega
      · exact hy b hb

theorem pairwise_sortByCountDesc (cnt : String → Nat) (ls : List String) :
    (sortByCountDesc cnt ls).Pairwise fun a b => cnt b ≤ cnt a := by
  have h : ∀ acc : List String, (acc.Pairwise fun a b => cnt b ≤ cnt a) →
      ((ls.foldl (fun acc x => insertByCountDesc cnt x acc) acc).Pairwise
        fun a b => cnt b ≤ cnt a) := by
    induction ls with
    | nil => intro acc hacc; simpa using hacc
    | cons x xs ih =>
      intro acc hacc
      exact ih _ (pairwise_insertByCountDesc cnt x acc hacc)
  exact h [] List.Pairwise.nil

theorem mem_sortByCountDesc (cnt : String → Nat) (ls : List String)
    (a : String) : a ∈ sortByCountDesc cnt ls ↔ a ∈ ls := by
  have h : ∀ acc : List String,
      (a ∈ ls.foldl (fun acc x => insertByCountDesc cnt x acc) acc ↔
        a ∈ ls ∨ a ∈ acc) := by
    induction ls with
    | nil => intro acc; simp
    | cons x xs ih =>
      intro acc
      rw [List.foldl_cons, ih, mem_insertByCountDesc]
      simp [List.mem_cons]
      tauto
  unfold sortByCountDesc
  rw [h []]
  simp

theorem mem_keys_bumpKey {α : Type} [DecidableEq α] (k a : α)
    (m : List (α × Nat)) :
    a ∈ (bumpKey k m).map Prod.fst ↔ a = k ∨ a ∈ m.map Prod.fst := by
  induction m with
  | nil => simp [bumpKey]
  | cons p rest ih =>
    obtain ⟨k', v⟩ := p
    simp only [bumpKey]
    split
    next h =>
      subst h
      simp [List.mem_cons]
    next h =>
      simp [List.mem_cons, ih]
      tauto

theorem mem_keys_fold_bumpKey {α : Type} [DecidableEq α] (ls : List α)
    (a : α) :
    (a ∈ (ls.foldl (fun m l => bumpKey l m) []).map Prod.fst ↔ a ∈ ls) := by
  have h : ∀ init : List (α × Nat),
      (a ∈ (ls.foldl (fun m l => bumpKey l m) init).map Prod.fst ↔
        a ∈ ls ∨ a ∈ init.map Prod.fst) := by
    induction ls with
    | nil => intro init; simp
    | cons x xs ih =>
      intro init
      rw [List.foldl_cons, ih, mem_keys_bumpKey]
      simp [List.mem_cons]
      tauto
  rw [h []]
  simp

/-- C7 counterexample: with one `Zeta` record before one `Alpha` record, the
code's topK is `[Zeta, Alpha]` (stable sort keeps first-appearance order on
equal counts), while the claimed lexical tie-break yields `[Alpha, Zeta]`. -/
theorem topDx_tiebreak_cex :
    topDx [recZeta, recAlpha] = ["Zeta", "Alpha"] ∧
    topKSpecOrder [recZeta, recAlpha] 8 = ["Alpha", "Zeta"] ∧
    topDx [recZeta, recAlpha] ≠ topKSpecOrder [recZeta, recAlpha] 8 := by
  decide

theorem insertByCountDesc_perm (cnt : String → Nat) (x : String)
    (l : List String) : List.Perm (insertByCountDesc cnt x l) (x :: l) := by
  induction l with
  | nil => exact List.Perm.refl _
  | cons y ys ih =>
    simp only [insertByCountDesc]
    split
    · exact List.Perm.refl _
    · exact (List.Perm.cons y ih).trans (List.Perm.swap x y ys)

theorem sortByCountDesc_perm (cnt : String → Nat) (ls : List String) :
    List.Perm (sortByCountDesc cnt ls) ls := by
  have h : ∀ acc : List String,
      List.Perm (ls.foldl (fun acc x => insertByCountDesc cnt x acc) acc)
        (acc ++ ls) := by
    induction ls with
    | nil => intro acc; simp
    | cons x xs ih =>
      intro acc
      rw [List.foldl_cons]
      refine (ih (insertByCountDesc cnt x acc)).trans ?_
      refine ((insertByCountDesc_perm cnt x acc).append_right xs).trans ?_
      exact List.perm_middle.symm
  have h0 := h []
  simpa using h0

theorem filter_insertByCountDesc (cnt : String → Nat) (c : Nat) (x : String)
    (l : List String) (h : l.Pairwise fun a b => cnt b ≤ cnt a) :
    (insertByCountDesc cnt x l).filter (fun a => cnt a == c) =
      if cnt x = c then l.filter (fun a => cnt a == c) ++ [x]
      else l.filter (fun a => cnt a == c) := by
  induction l with
  | nil =>
    by_cases hx : cnt x = c <;> simp [insertByCountDesc, hx]
  | cons y ys ih =>
    rw [List.pairwise_cons] at h
    obtain ⟨hy, hys⟩ := h
    simp only [insertByCountDesc]
    split
    next hlt =>
      by_cases hx : cnt x = c
      · have hnil : (y :: ys).filter (fun a => cnt a == c) = [] := by
          rw [List.filter_eq_nil_iff]
          intro a ha
          rcases List.mem_cons.mp ha with rfl | ha
          · simp
            omega
          · have := hy a ha
            simp
            omega
        rw [hnil]
        simp [List.filter_cons, hx, hnil]
      · simp [List.filter_cons, hx]
    next hge =>
      rw [List.filter_cons, List.filter_cons, ih hys]
      by_cases hx : cnt x = c <;> by_cases hyc : cnt y = c <;>
        simp [hx, hyc]

theorem filter_sortByCountDesc (cnt : String → Nat) (c : Nat)
    (ls : List String) :
    (sortByCountDesc cnt ls).filter (fun a => cnt a == c) =
      ls.filter (fun a => cnt a == c) := by
  have h : ∀ acc : List String, (acc.Pairwise fun a b => cnt b ≤ cnt a) →
      ((ls.foldl (fun acc x => insertByCountDesc cnt x acc) acc).filter
          (fun a => cnt a == c) =
        acc.filter (fun a => cnt a == c) ++ ls.filter (fun a => cnt a == c)) := by
    induction ls with
    | nil => intro acc hacc; simp
    | cons x xs ih =>
      intro acc hacc
      rw [List.foldl_cons, ih _ (pairwise_insertByCountDesc cnt x acc hacc),
        filter_insertByCountDesc cnt c x acc hacc]
      by_cases hx : cnt x = c <;> simp [List.filter_cons, hx]
  have h0 := h [] List.Pairwise.nil
  simpa using h0

theorem pairwise_take_drop {α : Type} {R : α → α → Prop} {l : List α}
    (h : l.Pairwise R) (n : Nat) :
    ∀ a ∈ l.take n, ∀ b ∈ l.drop n, R a b := by
  have h2 : List.Pairwise R (l.take n ++ l.drop n) := by
    rw [List.take_append_drop]
    exact h
  exact (List.pairwise_append.mp h2).2.2

/-- C7 amended: the top-diagnoses list is `slice(0,8)` of the distinct window
labels stably sorted by non-increasing count: the sorted key list is a
permutation of the labels in first-appearance order, is ordered by
non-increasing count, and restricted to any fixed count value it equals the
first-appearance order exactly (the stable tie-break — not lexical order);
consequently every selected label has a count at least that of every
unselected one, at most 8 labels (k is fixed at 8) are returned, and all of
them are labels of the window. -/
theorem topDx_stable_sort (docs : List DiagnosticRecord) :
    topDx docs = (sortedKeys docs).take 8 ∧
    List.Perm (sortedKeys docs) ((dxCount docs).map Prod.fst) ∧
    ((sortedKeys docs).Pairwise fun a b => countOf docs b ≤ countOf docs a) ∧
    (∀ c : Nat, (sortedKeys docs).filter (fun l => countOf docs l == c) =
      ((dxCount docs).map Prod.fst).filter (fun l => countOf docs l == c)) ∧
    (∀ l ∈ (dxCount docs).map Prod.fst, l ∉ topDx docs →
      ∀ m ∈ topDx docs, countOf docs l ≤ countOf docs m) ∧
    (topDx docs).length ≤ 8 ∧
    (∀ l ∈ topDx docs, l ∈ docs.map dxLabel) := by
  refine ⟨rfl, sortByCountDesc_perm _ _, pairwise_sortByCountDesc _ _,
    fun c => filter_sortByCountDesc _ c _, ?_, List.length_take_le 8 _, ?_⟩
  · intro l hl hnot m hm
    have hperm := sortByCountDesc_perm (countOf docs) ((dxCount docs).map Prod.fst)
    have hpw := pairwise_sortByCountDesc (countOf docs) ((dxCount docs).map Prod.fst)
    have hlsorted : l ∈ sortByCountDesc (countOf docs) ((dxCount docs).map Prod.fst) :=
      hperm.mem_iff.mpr hl
    have hl4 : l ∈ (sortByCountDesc (countOf docs)
        ((dxCount docs).map Prod.fst)).take 8 ∨
        l ∈ (sortByCountDesc (countOf docs) ((dxCount docs).map Prod.fst)).drop 8 := by
      rw [← List.take_append_drop 8 (sortByCountDesc (countOf docs)
        ((dxCount docs).map Prod.fst))] at hlsorted
      exact List.mem_append.mp hlsorted
    rcases hl4 with h | h
    · exact absurd h hnot
    · exact pairwise_take_drop hpw 8 m hm l h
  · intro l hl
    have hmem : l ∈ sortByCountDesc (countOf docs) ((dxCount docs).map Prod.fst) :=
      List.take_subset 8 _ hl
    rw [mem_sortByCountDesc] at hmem
    unfold dxCount at hmem
    exact (mem_keys_fold_bumpKey (docs.map dxLabel) l).mp hmem

/-- Witness for `topDx_stable_sort` on nine distinctly labeled records: the
ninth label is not selected and its count is bounded by a selected label's
count, and the stability equation holds at count 1. -/
theorem topDx_stable_sort_witness :
    countOf nineRecs "L9" ≤ countOf nineRecs "L1" ∧
    (sortedKeys nineRecs).filter (fun l => countOf nineRecs l == 1) =
      ((dxCount nineRecs).map Prod.fst).filter (fun l => countOf nineRecs l == 1) :=
  ⟨(topDx_stable_sort nineRecs).2.2.2.2.1 "L9" (by decide) (by decide)
      "L1" (by decide),
   (topDx_stable_sort nineRecs).2.2.2.1 1⟩
